import Mathlib

/-!
Verification development for the openclaw-crisp channel plugin.

The TypeScript sources (`src/monitor.ts`, `src/pending-replies.ts`,
`src/telegram-notify.ts`) are embedded shallowly:

* JavaScript strings that are compared code-unit by code-unit (the webhook
  secret) are modelled as `List Nat` of UTF-16 code units; all other strings
  are Lean `String`s.
* The two module-level `Map`s (active sessions, pending replies) are modelled
  as insertion-ordered association lists, matching JavaScript `Map` semantics
  (`get` finds the entry, `set` overwrites in place, `delete` removes,
  iteration follows insertion order).
* `Date.now()` and `Math.random().toString(36)` are external inputs and are
  passed explicitly (`now : Nat`, `randStr : String`).
* Network effects (Crisp REST calls, the AI dispatcher, Telegram delivery,
  system events) are recorded as an explicit effect list; the outcomes of the
  external calls the handler consults are inputs (`Env`).
-/

namespace OpenClawCrisp

/-! ## JavaScript `Map` model: insertion-ordered association lists -/

/-- JavaScript `Map.get`: the value of the first entry with this key. -/
def mapGet {α : Type} (m : List (String × α)) (k : String) : Option α :=
  match m with
  | [] => none
  | (k', v) :: rest => if k' = k then some v else mapGet rest k

/-- JavaScript `Map.set`: overwrite the entry in place, else append. -/
def mapSet {α : Type} (m : List (String × α)) (k : String) (v : α) :
    List (String × α) :=
  match m with
  | [] => [(k, v)]
  | (k', v') :: rest =>
      if k' = k then (k, v) :: rest else (k', v') :: mapSet rest k v

/-- JavaScript `Map.delete` (ignoring the returned flag). -/
def mapDelete {α : Type} (m : List (String × α)) (k : String) :
    List (String × α) :=
  match m with
  | [] => []
  | (k', v) :: rest =>
      if k' = k then mapDelete rest k else (k', v) :: mapDelete rest k

theorem mapGet_set_self {α : Type} (m : List (String × α)) (k : String) (v : α) :
    mapGet (mapSet m k v) k = some v := by
  induction m with
  | nil => simp [mapGet, mapSet]
  | cons hd tl ih =>
      obtain ⟨k0, v0⟩ := hd
      by_cases h : k0 = k
      · simp [mapGet, mapSet, h]
      · simp [mapGet, mapSet, h, ih]

theorem mapGet_set_ne {α : Type} (m : List (String × α)) (k k' : String) (v : α)
    (h : k' ≠ k) : mapGet (mapSet m k v) k' = mapGet m k' := by
  have h' : ¬ k = k' := fun hh => h hh.symm
  induction m with
  | nil => simp [mapGet, mapSet, h']
  | cons hd tl ih =>
      obtain ⟨k0, v0⟩ := hd
      by_cases hk : k0 = k
      · subst hk
        simp [mapGet, mapSet, h']
      · by_cases hk' : k0 = k'
        · simp [mapGet, mapSet, hk, hk', h, ih]
        · simp [mapGet, mapSet, hk, hk', ih]

theorem mapGet_set_set {α : Type} (m : List (String × α)) (k : String) (v w : α) :
    mapSet (mapSet m k v) k w = mapSet m k w := by
  induction m with
  | nil => simp [mapSet]
  | cons hd tl ih =>
      obtain ⟨k0, v0⟩ := hd
      by_cases h : k0 = k
      · simp [mapSet, h]
      · simp [mapSet, h, ih]

/-- After `set` followed by a sweep that keeps the new entry, `get` still
finds the new entry. -/
theorem mapGet_filter_set {α : Type} (m : List (String × α)) (k : String)
    (v : α) (p : String × α → Bool) (hp : p (k, v) = true) :
    mapGet ((mapSet m k v).filter p) k = some v := by
  induction m with
  | nil => simp [mapGet, mapSet, List.filter, hp]
  | cons hd tl ih =>
      obtain ⟨k0, v0⟩ := hd
      by_cases h : k0 = k
      · subst h
        simp [mapSet, List.filter, hp, mapGet]
      · simp only [mapSet, h, if_false]
        cases hpv : p (k0, v0) with
        | true => simp [List.filter, hpv, mapGet, h, ih]
        | false => simp [List.filter, hpv, ih]

/-! ## `validateWebhookSecret` (src/monitor.ts)

JavaScript strings are sequences of UTF-16 code units; `charCodeAt` reads one
code unit, so the secret comparison is modelled over `List Nat`. -/

/-- A JavaScript string viewed as its UTF-16 code units. -/
abbrev JSString := List Nat

/-- The XOR-accumulate loop of `validateWebhookSecret`:
`result |= p.charCodeAt(i) ^ e.charCodeAt(i)` for every index. -/
def secretXorAccum (p e : JSString) : Nat :=
  (List.zipWith Nat.xor p e).foldl Nat.lor 0

/--
```
const providedSecret = url.searchParams.get("secret");
if (!providedSecret || !expectedSecret) return false;
if (providedSecret.length !== expectedSecret.length) return false;
let result = 0;
for (let i = 0; i < providedSecret.length; i++)
  result |= providedSecret.charCodeAt(i) ^ expectedSecret.charCodeAt(i);
return result === 0;
```
`url.searchParams.get` yields `null` when the parameter is absent, hence the
`Option`; `!s` on a string is true exactly for the empty string. -/
def validateWebhookSecret (providedSecret : Option JSString)
    (expectedSecret : JSString) : Bool :=
  match providedSecret with
  | none => false
  | some p =>
      if p = [] then false
      else if expectedSecret = [] then false
      else if p.length ≠ expectedSecret.length then false
      else secretXorAccum p expectedSecret == 0

theorem lor_eq_zero_iff (a b : Nat) : a ||| b = 0 ↔ a = 0 ∧ b = 0 := by
  constructor
  · intro h
    refine ⟨Nat.eq_of_testBit_eq fun i => ?_, Nat.eq_of_testBit_eq fun i => ?_⟩ <;>
      have h1 : (a ||| b).testBit i = (0 : Nat).testBit i := by rw [h]
    all_goals
      rw [Nat.testBit_lor, Nat.zero_testBit] at h1
      simp [Bool.or_eq_false_iff] at h1
      simp [Nat.zero_testBit, h1]
  · rintro ⟨rfl, rfl⟩; rfl

theorem foldl_lor_eq_zero (l : List Nat) (acc : Nat) :
    l.foldl Nat.lor acc = 0 ↔ acc = 0 ∧ ∀ x ∈ l, x = 0 := by
  induction l generalizing acc with
  | nil => simp
  | cons hd tl ih =>
      simp only [List.foldl_cons, ih, List.mem_cons]
      constructor
      · rintro ⟨hacc, htl⟩
        have := (lor_eq_zero_iff acc hd).mp hacc
        exact ⟨this.1, fun x hx => hx.elim (fun h => h ▸ this.2) (htl x)⟩
      · rintro ⟨hacc, hall⟩
        exact ⟨(lor_eq_zero_iff acc hd).mpr ⟨hacc, hall hd (Or.inl rfl)⟩,
          fun x hx => hall x (Or.inr hx)⟩

theorem zipWith_xor_all_zero (p e : JSString) (hlen : p.length = e.length) :
    (∀ x ∈ List.zipWith Nat.xor p e, x = 0) ↔ p = e := by
  induction p generalizing e with
  | nil =>
      cases e with
      | nil => simp
      | cons b e' => simp at hlen
  | cons a p' ih =>
      cases e with
      | nil => simp at hlen
      | cons b e' =>
          have hlen' : p'.length = e'.length := by simpa using hlen
          simp only [List.zipWith_cons_cons, List.mem_cons, List.cons.injEq]
          constructor
          · intro h
            exact ⟨Nat.xor_eq_zero.mp (h _ (Or.inl rfl)),
              (ih e' hlen').mp fun x hx => h x (Or.inr hx)⟩
          · rintro ⟨rfl, rfl⟩
            intro x hx
            rcases hx with rfl | hx
            · exact Nat.xor_self a
            · exact (ih p' rfl).mpr rfl x hx

theorem secretXorAccum_eq_zero (p e : JSString) (hlen : p.length = e.length) :
    secretXorAccum p e = 0 ↔ p = e := by
  unfold secretXorAccum
  rw [foldl_lor_eq_zero]
  exact ⟨fun h => (zipWith_xor_all_zero p e hlen).mp h.2,
    fun h => ⟨rfl, (zipWith_xor_all_zero p e hlen).mpr h⟩⟩

/-- C1: `validateWebhookSecret` accepts exactly a present, non-empty provided
secret that is code-unit-equal to a non-empty configured secret; consequently
distinct equal-length secrets are rejected, as is any missing or empty secret
on either side. -/
theorem validateWebhookSecret_spec :
    (∀ (ps : Option JSString) (es : JSString),
        validateWebhookSecret ps es = true ↔
          ∃ p, ps = some p ∧ p ≠ [] ∧ es ≠ [] ∧ p = es) ∧
    (∀ s1 s2 : JSString, s1.length = s2.length → s1 ≠ s2 →
        validateWebhookSecret (some s1) s2 = false) ∧
    (∀ es : JSString, validateWebhookSecret none es = false) ∧
    (∀ es : JSString, validateWebhookSecret (some []) es = false) ∧
    (∀ ps : Option JSString, validateWebhookSecret ps [] = false) := by
  have main : ∀ (ps : Option JSString) (es : JSString),
      validateWebhookSecret ps es = true ↔
        ∃ p, ps = some p ∧ p ≠ [] ∧ es ≠ [] ∧ p = es := by
    intro ps es
    cases ps with
    | none =>
        simp only [validateWebhookSecret]
        constructor
        · intro h; cases h
        · rintro ⟨q, hq, _⟩; cases hq
    | some p =>
        simp only [validateWebhookSecret, Option.some.injEq]
        by_cases hp : p = []
        · subst hp
          simp only [if_pos rfl]
          constructor
          · intro h; cases h
          · rintro ⟨q, rfl, hq, _⟩; exact absurd rfl hq
        · rw [if_neg hp]
          by_cases he : es = []
          · subst he
            simp only [if_pos rfl]
            constructor
            · intro h; cases h
            · rintro ⟨q, rfl, _, hq, _⟩; exact absurd rfl hq
          · rw [if_neg he]
            by_cases hlen : p.length = es.length
            · rw [if_neg (by simpa using hlen)]
              rw [beq_iff_eq, secretXorAccum_eq_zero p es hlen]
              constructor
              · intro h; exact ⟨p, rfl, hp, he, h⟩
              · rintro ⟨q, hq, _, _, hq2⟩
                cases hq; exact hq2
            · rw [if_pos (by simpa using hlen)]
              constructor
              · intro h; cases h
              · rintro ⟨q, hq, _, _, rfl⟩
                cases hq; exact absurd rfl hlen
  refine ⟨main, ?_, ?_, ?_, ?_⟩
  · intro s1 s2 hlen hne
    cases h : validateWebhookSecret (some s1) s2 with
    | false => rfl
    | true =>
        rcases (main (some s1) s2).mp h with ⟨q, hq, _, _, heq⟩
        cases hq
        exact absurd heq hne
  · intro es; rfl
  · intro es
    cases h : validateWebhookSecret (some []) es with
    | false => rfl
    | true =>
        rcases (main (some []) es).mp h with ⟨q, hq, hne, _, _⟩
        cases hq
        exact absurd rfl hne
  · intro ps
    cases h : validateWebhookSecret ps [] with
    | false => rfl
    | true =>
        rcases (main ps []).mp h with ⟨q, _, _, hne, _⟩
        exact absurd rfl hne

/-- Witness for C1 at concrete inputs: equal-length distinct secrets
`[1,2]` vs `[1,3]` are rejected. -/
theorem validateWebhookSecret_spec_witness :
    validateWebhookSecret (some [1, 2]) [1, 3] = false :=
  validateWebhookSecret_spec.2.1 [1, 2] [1, 3] (by decide) (by decide)

/-! ## Pending-reply store (src/pending-replies.ts) -/

structure PendingReply where
  id : String
  crispSessionId : String
  crispWebsiteId : String
  visitorName : String
  visitorMessage : String
  proposedReply : String
  telegramMessageId : Option String
  telegramChatId : Option String
  createdAt : Nat
  accountId : String
deriving Repr, DecidableEq

abbrev PendingMap := List (String × PendingReply)

/-- TTL for pending replies (1 hour). -/
def PENDING_REPLY_TTL_MS : Nat := 60 * 60 * 1000

/-- JavaScript `String.prototype.toUpperCase` (the IDs involved are ASCII). -/
def toUpperCase (s : String) : String := String.mk (s.data.map Char.toUpper)

/-- `generateId`: `Math.random().toString(36).substring(2, 8).toUpperCase()`.
The base-36 string produced by `Math.random().toString(36)` is the explicit
`randStr` input. -/
def generateId (randStr : String) : String :=
  toUpperCase (String.mk ((randStr.data.drop 2).take 6))

/-- The `params` argument of `storePendingReply`
(`Omit<PendingReply, "id" | "createdAt">`, with the telegram fields unset). -/
structure StoreParams where
  crispSessionId : String
  crispWebsiteId : String
  visitorName : String
  visitorMessage : String
  proposedReply : String
  accountId : String
deriving Repr, DecidableEq

/-- `storePendingReply`: build the record, insert it, then sweep entries whose
`createdAt` is older than the cutoff. -/
def storePendingReply (randStr : String) (now : Nat) (params : StoreParams)
    (m : PendingMap) : PendingReply × PendingMap :=
  let id := generateId randStr
  let pending : PendingReply :=
    { id := id
      crispSessionId := params.crispSessionId
      crispWebsiteId := params.crispWebsiteId
      visitorName := params.visitorName
      visitorMessage := params.visitorMessage
      proposedReply := params.proposedReply
      telegramMessageId := none
      telegramChatId := none
      createdAt := now
      accountId := params.accountId }
  let m1 := mapSet m id pending
  let cutoff := now - PENDING_REPLY_TTL_MS
  (pending, m1.filter (fun p => !decide (p.2.createdAt < cutoff)))

/-- `getPendingReply`: case-insensitive lookup; an expired record is deleted
and reported absent. -/
def getPendingReply (id : String) (now : Nat) (m : PendingMap) :
    Option PendingReply × PendingMap :=
  match mapGet m (toUpperCase id) with
  | none => (none, m)
  | some pending =>
      if now - pending.createdAt > PENDING_REPLY_TTL_MS then
        (none, mapDelete m (toUpperCase id))
      else (some pending, m)

/-- `removePendingReply`: `pendingReplies.delete(id.toUpperCase())`. -/
def removePendingReply (id : String) (m : PendingMap) : Bool × PendingMap :=
  ((mapGet m (toUpperCase id)).isSome, mapDelete m (toUpperCase id))

/-- `updatePendingReplyTelegram`: attach the Telegram correlation fields if
the ticket is present. -/
def updatePendingReplyTelegram (id telegramMessageId telegramChatId : String)
    (m : PendingMap) : PendingMap :=
  match mapGet m (toUpperCase id) with
  | none => m
  | some pending =>
      mapSet m (toUpperCase id)
        { pending with
            telegramMessageId := some telegramMessageId
            telegramChatId := some telegramChatId }

/-- `findPendingReplyByTelegramMessage`: linear scan over all stored values
(insertion order), first match wins.  Note: no expiry check. -/
def findPendingReplyByTelegramMessage (telegramMessageId : String)
    (m : PendingMap) : Option PendingReply :=
  match m with
  | [] => none
  | p :: rest =>
      if p.2.telegramMessageId = some telegramMessageId then some p.2
      else findPendingReplyByTelegramMessage telegramMessageId rest

/-- `getAllPendingReplies`: all values with `createdAt >= cutoff`. -/
def getAllPendingReplies (now : Nat) (m : PendingMap) : List PendingReply :=
  (m.map (·.2)).filter
    (fun pending => decide (pending.createdAt ≥ now - PENDING_REPLY_TTL_MS))

/-! ### Map lemmas used by the store proofs -/

theorem mapGet_delete {α : Type} (m : List (String × α)) (k : String) :
    mapGet (mapDelete m k) k = none := by
  induction m with
  | nil => rfl
  | cons hd tl ih =>
      obtain ⟨k0, v0⟩ := hd
      by_cases h : k0 = k
      · simpa [mapDelete, h] using ih
      · simpa [mapDelete, h, mapGet] using ih

theorem mapGet_some_mem {α : Type} (m : List (String × α)) (k : String) (v : α)
    (h : mapGet m k = some v) : (k, v) ∈ m := by
  induction m with
  | nil => cases h
  | cons hd tl ih =>
      obtain ⟨k0, v0⟩ := hd
      by_cases hk : k0 = k
      · subst hk
        simp only [mapGet, eq_self_iff_true, if_true, Option.some.injEq] at h
        subst h
        exact List.mem_cons_self _ _
      · simp only [mapGet, hk, if_false] at h
        exact List.mem_cons_of_mem _ (ih h)

theorem mapGet_isSome_of_mem {α : Type} (m : List (String × α)) (k : String)
    (v : α) (h : (k, v) ∈ m) : (mapGet m k).isSome = true := by
  induction m with
  | nil => cases h
  | cons hd tl ih =>
      obtain ⟨k0, v0⟩ := hd
      by_cases hk : k0 = k
      · simp [mapGet, hk]
      · rcases List.mem_cons.mp h with heq | hmem
        · cases heq; exact absurd rfl hk
        · simpa [mapGet, hk] using ih hmem

theorem mem_mapSet {α : Type} (m : List (String × α)) (k : String) (v : α)
    (q : String × α) (h : q ∈ mapSet m k v) : q = (k, v) ∨ q ∈ m := by
  induction m with
  | nil => simpa [mapSet] using h
  | cons hd tl ih =>
      obtain ⟨k0, v0⟩ := hd
      by_cases hk : k0 = k
      · simp only [mapSet, hk, if_pos rfl] at h
        rcases List.mem_cons.mp h with heq | hmem
        · exact Or.inl heq
        · exact Or.inr (List.mem_cons_of_mem _ hmem)
      · simp only [mapSet, hk, if_false] at h
        rcases List.mem_cons.mp h with heq | hmem
        · exact Or.inr (heq ▸ List.mem_cons_self _ _)
        · rcases ih hmem with h1 | h1
          · exact Or.inl h1
          · exact Or.inr (List.mem_cons_of_mem _ h1)

/-! ### C4: case-insensitive get, TTL eviction -/

/-- C4: `getPendingReply` depends on the ID only through its uppercasing, so
any case variant yields the same result; an expired-but-present record is
reported absent, evicted on that access, and excluded from a subsequent
`getAllPendingReplies` listing. -/
theorem getPendingReply_spec :
    (∀ (id1 id2 : String) (now : Nat) (m : PendingMap),
        toUpperCase id1 = toUpperCase id2 →
        getPendingReply id1 now m = getPendingReply id2 now m) ∧
    (∀ (id : String) (now : Nat) (m : PendingMap) (pending : PendingReply),
        mapGet m (toUpperCase id) = some pending →
        now - pending.createdAt > PENDING_REPLY_TTL_MS →
        (getPendingReply id now m).1 = none ∧
        mapGet (getPendingReply id now m).2 (toUpperCase id) = none ∧
        pending ∉ getAllPendingReplies now (getPendingReply id now m).2) := by
  constructor
  · intro id1 id2 now m h
    unfold getPendingReply
    rw [h]
  · intro id now m pending hget hexp
    have hres : getPendingReply id now m =
        (none, mapDelete m (toUpperCase id)) := by
      unfold getPendingReply
      rw [hget]
      exact if_pos hexp
    refine ⟨by rw [hres], by rw [hres]; exact mapGet_delete m _, ?_⟩
    intro hmem
    rw [hres] at hmem
    unfold getAllPendingReplies at hmem
    have := (List.mem_filter.mp hmem).2
    simp only [decide_eq_true_eq] at this
    omega

/-- An expired sample ticket for exercising C4. -/
def c4Ticket : PendingReply :=
  { id := "ABC", crispSessionId := "s", crispWebsiteId := "w",
    visitorName := "v", visitorMessage := "hello",
    proposedReply := "", telegramMessageId := none,
    telegramChatId := none, createdAt := 0, accountId := "a" }

/-- A store holding only `c4Ticket`. -/
def c4Store : PendingMap := [("ABC", c4Ticket)]

/-- Witness for C4: the store above queried as `"abc"` at a time one
millisecond past the TTL. -/
theorem getPendingReply_spec_witness :
    (getPendingReply "ABC" 3600001 c4Store =
      getPendingReply "abc" 3600001 c4Store) ∧
    (getPendingReply "abc" 3600001 c4Store).1 = none ∧
    c4Ticket ∉ getAllPendingReplies 3600001
      (getPendingReply "abc" 3600001 c4Store).2 :=
  ⟨getPendingReply_spec.1 "ABC" "abc" 3600001 c4Store (by decide),
   (getPendingReply_spec.2 "abc" 3600001 c4Store c4Ticket
      (by decide) (by decide)).1,
   (getPendingReply_spec.2 "abc" 3600001 c4Store c4Ticket
      (by decide) (by decide)).2.2⟩

/-! ### C5: reverse lookup by Telegram message ID -/

/-- A ticket whose TTL has elapsed at time `3600001`, carrying a Telegram
correlation ID. -/
def c5ExpiredTicket : PendingReply :=
  { id := "XYZ999", crispSessionId := "s", crispWebsiteId := "w",
    visitorName := "v", visitorMessage := "hi",
    proposedReply := "", telegramMessageId := some "42",
    telegramChatId := some "777", createdAt := 0, accountId := "a" }

/-- A store holding only `c5ExpiredTicket`. -/
def c5Store : PendingMap := [("XYZ999", c5ExpiredTicket)]

/-- C5 counterexample: at time TTL+1ms the sole stored ticket is expired —
the live listing is empty — yet `findPendingReplyByTelegramMessage` still
returns it: the scan performs no expiry check, so an expired ticket *is*
returned, contradicting the claim. -/
theorem findPendingReplyByTelegramMessage_expired_cex :
    3600001 - c5ExpiredTicket.createdAt > PENDING_REPLY_TTL_MS ∧
    getAllPendingReplies 3600001 c5Store = [] ∧
    findPendingReplyByTelegramMessage "42" c5Store = some c5ExpiredTicket :=
  ⟨by decide, by decide, by decide⟩

/-- C5 amended: the scan runs over *all* stored records with no expiry
filtering; whenever exactly one stored record carries the given
notification-message ID (such as the one previously attached via
`updatePendingReplyTelegram`), the scan returns that record and no other —
even when its TTL has elapsed. -/
theorem findPendingReplyByTelegramMessage_unique :
    ∀ (tmid : String) (m : PendingMap) (entry : String × PendingReply),
      entry ∈ m →
      entry.2.telegramMessageId = some tmid →
      (∀ q ∈ m, q.2.telegramMessageId = some tmid → q.2 = entry.2) →
      findPendingReplyByTelegramMessage tmid m = some entry.2 := by
  intro tmid m
  induction m with
  | nil => intro entry hmem _ _; cases hmem
  | cons hd tl ih =>
      intro entry hmem htm huniq
      by_cases hh : hd.2.telegramMessageId = some tmid
      · have heq : hd.2 = entry.2 := huniq hd (List.mem_cons_self _ _) hh
        show (if hd.2.telegramMessageId = some tmid then some hd.2
          else findPendingReplyByTelegramMessage tmid tl) = some entry.2
        rw [if_pos hh, heq]
      · show (if hd.2.telegramMessageId = some tmid then some hd.2
          else findPendingReplyByTelegramMessage tmid tl) = some entry.2
        rw [if_neg hh]
        rcases List.mem_cons.mp hmem with heq | hmem'
        · exact absurd (heq ▸ htm) hh
        · exact ih entry hmem' htm
            (fun q hq hq2 => huniq q (List.mem_cons_of_mem _ hq) hq2)

/-- A ticket carrying Telegram message ID `"9"`, alongside one with none. -/
def c5LiveTicket : PendingReply :=
  { id := "AAA111", crispSessionId := "s2", crispWebsiteId := "w",
    visitorName := "v2", visitorMessage := "yo",
    proposedReply := "", telegramMessageId := some "9",
    telegramChatId := some "777", createdAt := 10, accountId := "a" }

/-- A ticket with no Telegram correlation. -/
def c5OtherTicket : PendingReply :=
  { id := "BBB222", crispSessionId := "s3", crispWebsiteId := "w",
    visitorName := "v3", visitorMessage := "hey",
    proposedReply := "", telegramMessageId := none,
    telegramChatId := none, createdAt := 20, accountId := "a" }

/-- Witness for the amended C5: in a two-ticket store where only
`c5LiveTicket` carries ID `"9"`, the scan returns it. -/
theorem findPendingReplyByTelegramMessage_unique_witness :
    findPendingReplyByTelegramMessage "9"
      [("BBB222", c5OtherTicket), ("AAA111", c5LiveTicket)] =
      some c5LiveTicket :=
  findPendingReplyByTelegramMessage_unique "9"
    [("BBB222", c5OtherTicket), ("AAA111", c5LiveTicket)]
    ("AAA111", c5LiveTicket) (by decide) (by decide) (by decide)

/-! ### C9: generated IDs and the uppercase-key invariant -/

/-- The digit characters `Number.prototype.toString(36)` can emit:
`0`–`9` then `a`–`z`. -/
def base36Digits : List Char :=
  (List.range 10).map (fun n => Char.ofNat (48 + n)) ++
    (List.range 26).map (fun n => Char.ofNat (97 + n))

/-- Digits and uppercase letters `A`–`Z`: the alphabet of generated ticket
IDs. -/
def upperBase36 : List Char :=
  (List.range 10).map (fun n => Char.ofNat (48 + n)) ++
    (List.range 26).map (fun n => Char.ofNat (65 + n))

/-- Shape of `Math.random().toString(36)` for an argument in `[0, 1)`:
either `"0"` exactly, or `"0."` followed by base-36 digits. -/
def isBase36Frac (s : String) : Prop :=
  s = "0" ∨ ∃ ds : List Char,
    s.data = '0' :: '.' :: ds ∧ ∀ c ∈ ds, c ∈ base36Digits

theorem toUpper_base36 : ∀ c ∈ base36Digits, Char.toUpper c ∈ upperBase36 := by
  decide

theorem toUpper_fix_upperBase36 : ∀ c ∈ upperBase36, Char.toUpper c = c := by
  decide

theorem map_toUpper_id {l : List Char} (h : ∀ c ∈ l, Char.toUpper c = c) :
    l.map Char.toUpper = l := by
  induction l with
  | nil => rfl
  | cons hd tl ih =>
      simp [h hd (List.mem_cons_self _ _),
        ih fun c hc => h c (List.mem_cons_of_mem _ hc)]

theorem generateId_chars (s : String) (hs : isBase36Frac s) :
    (generateId s).data.length ≤ 6 ∧
      ∀ c ∈ (generateId s).data, c ∈ upperBase36 := by
  rcases hs with rfl | ⟨ds, hds, hmem⟩
  · exact ⟨by decide, by decide⟩
  · have hdata : (generateId s).data = (ds.take 6).map Char.toUpper := by
      unfold generateId toUpperCase
      rw [hds]
      rfl
    constructor
    · rw [hdata, List.length_map, List.length_take]
      exact min_le_left 6 ds.length
    · rw [hdata]
      intro c hc
      rcases List.mem_map.mp hc with ⟨c0, hc0, rfl⟩
      exact toUpper_base36 c0 (hmem c0 (List.mem_of_mem_take hc0))

theorem toUpperCase_generateId (s : String) (hs : isBase36Frac s) :
    toUpperCase (generateId s) = generateId s := by
  have h := (generateId_chars s hs).2
  unfold toUpperCase
  rw [map_toUpper_id fun c hc =>
    toUpper_fix_upperBase36 c (h c hc)]

theorem mem_mapDelete {α : Type} (m : List (String × α)) (k : String)
    (q : String × α) (h : q ∈ mapDelete m k) : q ∈ m := by
  induction m with
  | nil => cases h
  | cons hd tl ih =>
      obtain ⟨k0, v0⟩ := hd
      by_cases hk : k0 = k
      · simp only [mapDelete, hk, if_pos rfl] at h
        exact List.mem_cons_of_mem _ (ih h)
      · simp only [mapDelete, hk, if_false] at h
        rcases List.mem_cons.mp h with heq | hmem
        · exact heq ▸ List.mem_cons_self _ _
        · exact List.mem_cons_of_mem _ (ih hmem)

/-- The key invariant of the pending-reply map: every key is the uppercase of
its record's `id` field. -/
def storeInv (m : PendingMap) : Prop := ∀ p ∈ m, p.1 = toUpperCase p.2.id

/-- C9: generated IDs use only digits and uppercase A–Z and have at most 6
characters; every store operation preserves the key-equals-uppercase-of-id
invariant (holding initially of the empty map), which in turn guarantees that
the uppercase-normalizing lookups locate every stored ticket. -/
theorem pendingStore_key_invariant :
    (∀ s : String, isBase36Frac s →
        (generateId s).data.length ≤ 6 ∧
        ∀ c ∈ (generateId s).data, c ∈ upperBase36) ∧
    storeInv [] ∧
    (∀ (s : String) (now : Nat) (params : StoreParams) (m : PendingMap),
        isBase36Frac s → storeInv m →
        (storePendingReply s now params m).1.id = generateId s ∧
        storeInv (storePendingReply s now params m).2) ∧
    (∀ (id t c : String) (m : PendingMap), storeInv m →
        storeInv (updatePendingReplyTelegram id t c m)) ∧
    (∀ (id : String) (m : PendingMap), storeInv m →
        storeInv (removePendingReply id m).2) ∧
    (∀ (id : String) (now : Nat) (m : PendingMap), storeInv m →
        storeInv (getPendingReply id now m).2) ∧
    (∀ m : PendingMap, storeInv m →
        ∀ p ∈ m, (mapGet m (toUpperCase p.2.id)).isSome = true) := by
  refine ⟨generateId_chars, ?_, ?_, ?_, ?_, ?_, ?_⟩
  · intro p hp; cases hp
  · intro s now params m hs hinv
    refine ⟨rfl, ?_⟩
    intro p hp
    have hp1 : p ∈ mapSet m (generateId s)
        { id := generateId s
          crispSessionId := params.crispSessionId
          crispWebsiteId := params.crispWebsiteId
          visitorName := params.visitorName
          visitorMessage := params.visitorMessage
          proposedReply := params.proposedReply
          telegramMessageId := none
          telegramChatId := none
          createdAt := now
          accountId := params.accountId } := List.mem_of_mem_filter hp
    rcases mem_mapSet _ _ _ _ hp1 with heq | hmem
    · subst heq
      exact (toUpperCase_generateId s hs).symm
    · exact hinv p hmem
  · intro id t c m hinv p hp
    unfold updatePendingReplyTelegram at hp
    cases hget : mapGet m (toUpperCase id) with
    | none => rw [hget] at hp; exact hinv p hp
    | some pending =>
        rw [hget] at hp
        rcases mem_mapSet _ _ _ _ hp with heq | hmem
        · subst heq
          have := hinv _ (mapGet_some_mem m _ _ hget)
          exact this
        · exact hinv p hmem
  · intro id m hinv p hp
    exact hinv p (mem_mapDelete _ _ _ hp)
  · intro id now m hinv p hp
    unfold getPendingReply at hp
    cases hget : mapGet m (toUpperCase id) with
    | none => rw [hget] at hp; exact hinv p hp
    | some pending =>
        rw [hget] at hp
        have hp' : p ∈ (if now - pending.createdAt > PENDING_REPLY_TTL_MS
            then ((none : Option PendingReply), mapDelete m (toUpperCase id))
            else (some pending, m)).2 := hp
        by_cases hexp : now - pending.createdAt > PENDING_REPLY_TTL_MS
        · rw [if_pos hexp] at hp'
          exact hinv p (mem_mapDelete _ _ _ hp')
        · rw [if_neg hexp] at hp'
          exact hinv p hp'
  · intro m hinv p hp
    have hkey := hinv p hp
    have : (p.1, p.2) ∈ m := hp
    rw [hkey] at this
    exact mapGet_isSome_of_mem m _ _ this

/-- Witness for C9: concrete randomness `"0.abc123"` yields ID `"ABC123"`;
storing into the empty map from it preserves the invariant. -/
theorem pendingStore_key_invariant_witness :
    ((generateId "0.abc123").data.length ≤ 6 ∧
      ∀ c ∈ (generateId "0.abc123").data, c ∈ upperBase36) ∧
    (storePendingReply "0.abc123" 5
        { crispSessionId := "s", crispWebsiteId := "w", visitorName := "v",
          visitorMessage := "m", proposedReply := "", accountId := "a" }
        []).1.id = generateId "0.abc123" :=
  ⟨pendingStore_key_invariant.1 "0.abc123"
      (Or.inr ⟨['a', 'b', 'c', '1', '2', '3'], rfl, by decide⟩),
   (pendingStore_key_invariant.2.2.1 "0.abc123" 5
      { crispSessionId := "s", crispWebsiteId := "w", visitorName := "v",
        visitorMessage := "m", proposedReply := "", accountId := "a" }
      [] (Or.inr ⟨['a', 'b', 'c', '1', '2', '3'], rfl, by decide⟩)
      (fun p hp => absurd hp (List.not_mem_nil p))).1⟩

/-! ## Session tracker (src/monitor.ts) -/

structure CrispSessionState where
  sessionId : String
  websiteId : String
  accountId : String
  visitorName : String
  visitorEmail : Option String
  startedAt : Nat
  lastMessageAt : Nat
  messageCount : Nat
  isNew : Bool
deriving Repr, DecidableEq

abbrev SessionMap := List (String × CrispSessionState)

/-- TTL for tracked sessions (24 hours). -/
def SESSION_TTL_MS : Nat := 24 * 60 * 60 * 1000

/-- `trackSession`: update the existing record in place (count+1, refresh
activity, clear the new flag) or create a fresh one; on insert, when the map
holds more than 100 entries, sweep entries idle longer than the TTL. -/
def trackSession (sessionId websiteId accountId visitorName : String)
    (visitorEmail : Option String) (now : Nat) (m : SessionMap) :
    CrispSessionState × SessionMap :=
  match mapGet m sessionId with
  | some existing =>
      let updated : CrispSessionState :=
        { existing with
            lastMessageAt := now
            messageCount := existing.messageCount + 1
            isNew := false }
      (updated, mapSet m sessionId updated)
  | none =>
      let session : CrispSessionState :=
        { sessionId := sessionId, websiteId := websiteId,
          accountId := accountId, visitorName := visitorName,
          visitorEmail := visitorEmail, startedAt := now,
          lastMessageAt := now, messageCount := 1, isNew := true }
      let m1 := mapSet m sessionId session
      let m2 :=
        if m1.length > 100 then
          m1.filter (fun p => !decide (p.2.lastMessageAt < now - SESSION_TTL_MS))
        else m1
      (session, m2)

/-- C6: tracking an unseen conversation ID creates a record with
`messageCount = 1` and `isNew = true`; a second call for the same ID (at any
later time within the session TTL) returns `messageCount = 2` and
`isNew = false`. -/
theorem trackSession_two_calls :
    ∀ (sid w a vn w2 a2 vn2 : String) (ve ve2 : Option String)
      (m : SessionMap) (now1 now2 : Nat),
      mapGet m sid = none →
      now1 ≤ now2 → now2 - now1 ≤ SESSION_TTL_MS →
      ((trackSession sid w a vn ve now1 m).1.messageCount = 1 ∧
       (trackSession sid w a vn ve now1 m).1.isNew = true) ∧
      ((trackSession sid w2 a2 vn2 ve2 now2
          (trackSession sid w a vn ve now1 m).2).1.messageCount = 2 ∧
       (trackSession sid w2 a2 vn2 ve2 now2
          (trackSession sid w a vn ve now1 m).2).1.isNew = false) := by
  intro sid w a vn w2 a2 vn2 ve ve2 m now1 now2 hnone h12 hTTL
  have hfst : (trackSession sid w a vn ve now1 m).1 =
      { sessionId := sid, websiteId := w, accountId := a, visitorName := vn,
        visitorEmail := ve, startedAt := now1, lastMessageAt := now1,
        messageCount := 1, isNew := true } := by
    simp only [trackSession, hnone]
  have hget : mapGet (trackSession sid w a vn ve now1 m).2 sid =
      some { sessionId := sid, websiteId := w, accountId := a,
             visitorName := vn, visitorEmail := ve, startedAt := now1,
             lastMessageAt := now1, messageCount := 1, isNew := true } := by
    simp only [trackSession, hnone]
    by_cases hlen :
        (mapSet m sid { sessionId := sid, websiteId := w, accountId := a,
                        visitorName := vn, visitorEmail := ve, startedAt := now1,
                        lastMessageAt := now1, messageCount := 1,
                        isNew := true }).length > 100
    · rw [if_pos hlen]
      apply mapGet_filter_set
      simp only [Bool.not_eq_true']
      simp only [decide_eq_false_iff_not]
      omega
    · rw [if_neg hlen]
      exact mapGet_set_self _ _ _
  refine ⟨⟨by rw [hfst], by rw [hfst]⟩, ?_, ?_⟩ <;>
    · generalize hX : (trackSession sid w a vn ve now1 m).2 = X at hget
      simp only [trackSession, hget]

/-- Witness for C6: an unseen ID in the empty map, second call 1000 ms
later. -/
theorem trackSession_two_calls_witness :
    ((trackSession "s1" "w" "a" "v" none 0 []).1.messageCount = 1 ∧
     (trackSession "s1" "w" "a" "v" none 0 []).1.isNew = true) ∧
    ((trackSession "s1" "w" "a" "v" none 1000
        (trackSession "s1" "w" "a" "v" none 0 []).2).1.messageCount = 2 ∧
     (trackSession "s1" "w" "a" "v" none 1000
        (trackSession "s1" "w" "a" "v" none 0 []).2).1.isNew = false) :=
  trackSession_two_calls "s1" "w" "a" "v" "w" "a" "v" none none [] 0 1000
    (by decide) (by decide) (by decide)

/-! ## The `session:set_email` arm of the webhook switch (src/monitor.ts) -/

/-- JavaScript truthiness of `string | undefined`. -/
def truthy (s : Option String) : Bool :=
  match s with
  | none => false
  | some s => decide (s ≠ "")

/--
```
const session = activeSessions.get(body.data.session_id);
if (session && body.data.email) session.visitorEmail = body.data.email;
```
-/
def applySetEmail (sessionId : String) (email : Option String)
    (m : SessionMap) : SessionMap :=
  match mapGet m sessionId with
  | none => m
  | some session =>
      if truthy email then
        mapSet m sessionId { session with visitorEmail := email }
      else m

theorem applySetEmail_of_none (sid : String) (email : Option String)
    (m : SessionMap) (h : mapGet m sid = none) :
    applySetEmail sid email m = m := by
  unfold applySetEmail; rw [h]

theorem applySetEmail_of_some_true (sid : String) (email : Option String)
    (m : SessionMap) (session : CrispSessionState)
    (h : mapGet m sid = some session) (ht : truthy email = true) :
    applySetEmail sid email m =
      mapSet m sid { session with visitorEmail := email } := by
  unfold applySetEmail; rw [h]; exact if_pos ht

theorem applySetEmail_of_some_false (sid : String) (email : Option String)
    (m : SessionMap) (session : CrispSessionState)
    (h : mapGet m sid = some session) (ht : ¬ truthy email = true) :
    applySetEmail sid email m = m := by
  unfold applySetEmail; rw [h]; exact if_neg ht

/-- All session fields other than `visitorEmail` agree. -/
def sameExceptEmail (a b : CrispSessionState) : Prop :=
  a.sessionId = b.sessionId ∧ a.websiteId = b.websiteId ∧
  a.accountId = b.accountId ∧ a.visitorName = b.visitorName ∧
  a.startedAt = b.startedAt ∧ a.lastMessageAt = b.lastMessageAt ∧
  a.messageCount = b.messageCount ∧ a.isNew = b.isNew

/-- C7: handling `session:set_email` is idempotent — applying it twice with
the same email equals applying it once — and it modifies no session field
other than `visitorEmail`. -/
theorem applySetEmail_idempotent :
    (∀ (sid : String) (email : Option String) (m : SessionMap),
        applySetEmail sid email (applySetEmail sid email m) =
          applySetEmail sid email m) ∧
    (∀ (sid : String) (email : Option String) (m : SessionMap)
        (sid' : String) (s' : CrispSessionState),
        mapGet (applySetEmail sid email m) sid' = some s' →
        ∃ s, mapGet m sid' = some s ∧ sameExceptEmail s' s) := by
  constructor
  · intro sid email m
    cases hget : mapGet m sid with
    | none => simp [applySetEmail_of_none sid email m hget]
    | some session =>
        by_cases htr : truthy email = true
        · rw [applySetEmail_of_some_true sid email m session hget htr,
            applySetEmail_of_some_true sid email _ _
              (mapGet_set_self m sid { session with visitorEmail := email }) htr,
            mapGet_set_set]
        · simp [applySetEmail_of_some_false sid email m session hget htr]
  · intro sid email m sid' s' hget'
    cases hget : mapGet m sid with
    | none =>
        rw [applySetEmail_of_none sid email m hget] at hget'
        exact ⟨s', hget', rfl, rfl, rfl, rfl, rfl, rfl, rfl, rfl⟩
    | some session =>
        by_cases htr : truthy email = true
        · rw [applySetEmail_of_some_true sid email m session hget htr] at hget'
          by_cases hsid : sid' = sid
          · subst hsid
            rw [mapGet_set_self] at hget'
            cases hget'
            exact ⟨session, hget, rfl, rfl, rfl, rfl, rfl, rfl, rfl, rfl⟩
          · rw [mapGet_set_ne m sid sid' _ hsid] at hget'
            exact ⟨s', hget', rfl, rfl, rfl, rfl, rfl, rfl, rfl, rfl⟩
        · rw [applySetEmail_of_some_false sid email m session hget htr] at hget'
          exact ⟨s', hget', rfl, rfl, rfl, rfl, rfl, rfl, rfl, rfl⟩

/-- A tracked session used to exercise C7. -/
def c7Session : CrispSessionState :=
  { sessionId := "s1", websiteId := "w", accountId := "a",
    visitorName := "v", visitorEmail := none, startedAt := 0,
    lastMessageAt := 0, messageCount := 1, isNew := true }

/-- Witness for C7: applying `session:set_email` twice with the same email to
a one-session map equals applying it once, and the updated record differs
only in `visitorEmail`. -/
theorem applySetEmail_idempotent_witness :
    (applySetEmail "s1" (some "x@y.z")
        (applySetEmail "s1" (some "x@y.z") [("s1", c7Session)]) =
      applySetEmail "s1" (some "x@y.z") [("s1", c7Session)]) ∧
    ∃ s, mapGet [("s1", c7Session)] "s1" = some s ∧
      sameExceptEmail { c7Session with visitorEmail := some "x@y.z" } s :=
  ⟨applySetEmail_idempotent.1 "s1" (some "x@y.z") [("s1", c7Session)],
   applySetEmail_idempotent.2 "s1" (some "x@y.z") [("s1", c7Session)] "s1"
     { c7Session with visitorEmail := some "x@y.z" } (by decide)⟩

/-! ## `escapeMarkdown` (src/telegram-notify.ts) -/

/-- The character class of the regex used by `escapeMarkdown`
(underscore, asterisk, brackets, parens, tilde, backtick, angle, hash, plus,
minus, equals, pipe, braces, dot, bang, backslash). -/
def isMarkdownSpecial (c : Char) : Bool :=
  c == '_' || c == '*' || c == '[' || c == ']' || c == '(' || c == ')' ||
  c == '~' || c == '\x60' || c == '>' || c == '#' || c == '+' || c == '-' ||
  c == '=' || c == '|' || c == '\x7b' || c == '\x7d' || c == '.' ||
  c == '!' || c == '\\'

/-- `text.replace(/[_*\[\]()~\x60>#+\-=|\x7b\x7d.!\\]/g, "\\$&")`: every
single-character match is replaced by a backslash followed by the match. -/
def escapeMarkdown (text : String) : String :=
  String.mk (text.data.flatMap fun c =>
    if isMarkdownSpecial c then ['\\', c] else [c])

/-- The characters Telegram MarkdownV2 treats as special, as enumerated by
the claim. -/
def telegramV2Special : List Char :=
  ['_', '*', '[', ']', '(', ')', '~', '\x60', '>', '#', '+', '-', '=', '|',
   '\x7b', '\x7d', '.', '!', '\\']

/-- C8: the escape set coincides exactly with the claim's MarkdownV2 special
set, and `escapeMarkdown` maps each input character to a backslash-prefixed
pair when special and passes it through unchanged otherwise. -/
theorem escapeMarkdown_spec :
    (∀ c : Char, isMarkdownSpecial c = true ↔ c ∈ telegramV2Special) ∧
    (∀ s : String, (escapeMarkdown s).data =
      s.data.flatMap fun c =>
        if c ∈ telegramV2Special then ['\\', c] else [c]) := by
  have hset : ∀ c : Char, isMarkdownSpecial c = true ↔ c ∈ telegramV2Special := by
    intro c
    simp only [isMarkdownSpecial, telegramV2Special, Bool.or_eq_true,
      beq_iff_eq, List.mem_cons, List.mem_singleton, List.not_mem_nil, or_false]
    tauto
  refine ⟨hset, ?_⟩
  intro s
  show (s.data.flatMap fun c =>
      if isMarkdownSpecial c then ['\\', c] else [c]) = _
  induction s.data with
  | nil => rfl
  | cons hd tl ih =>
      simp only [List.flatMap_cons, ih]
      congr 1
      by_cases h : hd ∈ telegramV2Special
      · rw [if_pos ((hset hd).mpr h), if_pos h]
      · rw [if_neg (fun hh => h ((hset hd).mp hh)), if_neg h]

/-! ## Webhook handler (src/monitor.ts) -/

/-- `data.user` of a webhook payload. -/
structure CrispUser where
  nickname : String
  user_id : String
deriving Repr, DecidableEq

/-- `CrispWebhookData` (src/types.ts); `from` is a Lean keyword, rendered as
`from_`. -/
structure CrispWebhookData where
  website_id : String
  session_id : String
  type : Option String
  content : Option String
  from_ : Option String
  timestamp : Option Nat
  fingerprint : Option Nat
  user : Option CrispUser
  state : Option String
  email : Option String
deriving Repr, DecidableEq

/-- `CrispWebhookPayload` (src/types.ts). -/
structure CrispWebhookPayload where
  website_id : String
  event : String
  data : CrispWebhookData
  timestamp : Nat
deriving Repr, DecidableEq

/-- The configuration fields `monitor.ts` reads.  String fields that may be
absent in the TypeScript config use `""` for "unset" (both are falsy and are
used only in truthiness tests). -/
structure CrispConfig where
  webhookPath : String
  webhookSecret : JSString
  autoReply : Bool
  approvalMode : Bool
  historyLimit : Nat
  operatorName : String
  telegramBotToken : String
  approvalChatId : String
  resolveOnReply : Bool
deriving Repr, DecidableEq

def DEFAULT_WEBHOOK_PATH : String := "/crisp-webhook"

/-- `config.webhookPath || DEFAULT_WEBHOOK_PATH`. -/
def resolveWebhookPath (config : CrispConfig) : String :=
  if config.webhookPath = "" then DEFAULT_WEBHOOK_PATH else config.webhookPath

/-- `url.pathname.startsWith(webhookPath)`, over character lists. -/
def listStartsWith : List Char → List Char → Bool
  | _, [] => true
  | [], _ => false
  | c :: cs, p :: ps => c == p && listStartsWith cs ps

/-- `s.startsWith(pre)`. -/
def startsWithJS (s pre : String) : Bool := listStartsWith s.data pre.data

/-- `String.prototype.trim`. -/
def trimJS (s : String) : String :=
  String.mk
    (((s.data.dropWhile Char.isWhitespace).reverse.dropWhile
        Char.isWhitespace).reverse)

/-- One message returned by `client.getMessages`. -/
structure CrispMessage where
  from_ : String
  content : String
deriving Repr, DecidableEq

/-- Observable external calls the handler makes. -/
inductive Effect where
  | getMessages (websiteId sessionId : String) (limit : Nat)
  | dispatchAI (body rawBody sessionId : String)
  | sendMessage (websiteId sessionId content : String)
  | updateConversationState (websiteId sessionId state : String)
  | telegramNotify (pendingId visitorName visitorMessage : String)
  | enqueueSystemEvent (message : String)
deriving Repr, DecidableEq

def isSendMessage : Effect → Bool
  | Effect.sendMessage _ _ _ => true
  | _ => false

def isTelegramNotify : Effect → Bool
  | Effect.telegramNotify _ _ _ => true
  | _ => false

/-- Outcomes of the external calls consulted during one request. -/
structure Env where
  /-- `hasCrispRuntime()` -/
  runtimeAvailable : Bool
  /-- result of `client.getMessages` (`none`: the call threw) -/
  history : Option (List CrispMessage)
  /-- Telegram delivery: `some id` = `{ok: true, messageId: id}`,
  `none` = failure or exception -/
  telegramResult : Option Nat
  /-- the trimmed-or-not texts the AI dispatcher passes to `deliver` -/
  aiChunks : List String
  /-- `Math.random().toString(36)` inside `storePendingReply` -/
  randStr : String
  /-- `Date.now()` -/
  now : Nat
deriving Repr, DecidableEq

/-- The two module-level maps of the monitor. -/
structure MonitorState where
  activeSessions : SessionMap
  pendingReplies : PendingMap
deriving Repr, DecidableEq

structure HttpResponse where
  status : Nat
  body : String
deriving Repr, DecidableEq

/-- The outcome of `handleCrispWebhookRequest`: the returned boolean, the
response written (if any), the new state, and the effects performed. -/
structure HandlerResult where
  handled : Bool
  response : Option HttpResponse
  state : MonitorState
  effects : List Effect
deriving Repr, DecidableEq

/-- A webhook HTTP request after URL parsing: method, `url.pathname`, the
`secret` query parameter (UTF-16 code units; `none` when absent), and the
JSON body parse outcome (`none`: invalid JSON, handler responds 500). -/
structure WebhookRequest where
  method : String
  pathname : String
  secretParam : Option JSString
  body : Option CrispWebhookPayload
deriving Repr, DecidableEq

/-- History text:
`messages.reverse().slice(0, -1).map(m => role + ": " + m.content).join("\n")`
wrapped in the `[Previous messages]` envelope when non-empty. -/
def buildHistoryText (visitorName operatorName : String)
    (messages : List CrispMessage) : String :=
  let history := String.intercalate "\n"
    ((messages.reverse.dropLast).map fun msg =>
      (if msg.from_ = "user" then visitorName else operatorName) ++ ": " ++
        msg.content)
  if history = "" then ""
  else "\n\n[Previous messages]\n" ++ history ++ "\n[End of history]"

/-- `handleInboundMessage` (src/monitor.ts): updated state plus effects. -/
def handleInboundMessage (config : CrispConfig) (env : Env)
    (accountId : String) (payload : CrispWebhookPayload)
    (st : MonitorState) : MonitorState × List Effect :=
  let data := payload.data
  if data.from_ ≠ some "user" then (st, [])
  else if (match data.type with
           | some t =>
               decide (t ≠ "") && decide (t ≠ "text") && decide (t ≠ "file")
           | none => false) then (st, [])
  else
    let sessionId := data.session_id
    let visitorName :=
      match data.user with
      | some u => if u.nickname = "" then "Visitor" else u.nickname
      | none => "Visitor"
    let isFile := decide (data.type = some "file")
    let messageText :=
      if isFile then "[Fichier envoyé]" else data.content.getD ""
    let mediaUrl : Option String :=
      if isFile then some (data.content.getD "") else none
    let tracked := trackSession sessionId data.website_id accountId
      visitorName none env.now st.activeSessions
    let st1 : MonitorState := { st with activeSessions := tracked.2 }
    if !config.autoReply && !config.approvalMode then (st1, [])
    else if !env.runtimeAvailable then (st1, [])
    else
      let histPair :=
        if config.historyLimit > 0 then
          match env.history with
          | none =>
              ("", [Effect.getMessages data.website_id sessionId
                      config.historyLimit])
          | some msgs =>
              (buildHistoryText visitorName config.operatorName msgs,
               [Effect.getMessages data.website_id sessionId
                  config.historyLimit])
        else ("", ([] : List Effect))
      let mediaPlaceholder := if truthy mediaUrl then " <media:file>" else ""
      let body := messageText ++ mediaPlaceholder ++ histPair.1
      if config.approvalMode then
        let stored := storePendingReply env.randStr env.now
          { crispSessionId := sessionId, crispWebsiteId := data.website_id,
            visitorName := visitorName, visitorMessage := messageText,
            proposedReply := "", accountId := accountId } st.pendingReplies
        let st2 : MonitorState :=
          { st1 with pendingReplies := stored.2 }
        if config.telegramBotToken ≠ "" ∧ config.approvalChatId ≠ "" then
          match env.telegramResult with
          | some mid =>
              (if mid ≠ 0 then
                 { st2 with
                     pendingReplies :=
                       updatePendingReplyTelegram stored.1.id (toString mid)
                         config.approvalChatId st2.pendingReplies }
               else st2,
               histPair.2 ++
                 [Effect.telegramNotify stored.1.id visitorName messageText])
          | none =>
              (st2, histPair.2 ++
                [Effect.telegramNotify stored.1.id visitorName messageText])
        else
          (st2, histPair.2 ++
            [Effect.enqueueSystemEvent
              ("🆕 CRISP_MESSAGE [" ++ stored.1.id ++ "] from \"" ++
                visitorName ++ "\": \"" ++ messageText ++ "\"")])
      else
        (st1, histPair.2 ++ [Effect.dispatchAI body messageText sessionId] ++
          (env.aiChunks.flatMap fun chunk =>
            if trimJS chunk = "" then []
            else
              [Effect.sendMessage data.website_id sessionId (trimJS chunk)] ++
                (if config.resolveOnReply then
                  [Effect.updateConversationState data.website_id sessionId
                    "resolved"]
                else [])))

def okBody : String := "\x7b\"ok\":true\x7d"

def invalidSecretBody : String := "\x7b\"error\":\"Invalid secret\"\x7d"

def internalErrorBody : String := "\x7b\"error\":\"Internal error\"\x7d"

/-- `handleCrispWebhookRequest` (src/monitor.ts): method check, path check,
secret validation, body parsing, then the event switch; 200 is always
returned once the body parses. -/
def handleCrispWebhookRequest (req : WebhookRequest) (config : CrispConfig)
    (env : Env) (accountId : String) (st : MonitorState) : HandlerResult :=
  if req.method ≠ "POST" then ⟨false, none, st, []⟩
  else if !(startsWithJS req.pathname (resolveWebhookPath config)) then
    ⟨false, none, st, []⟩
  else if !(validateWebhookSecret req.secretParam config.webhookSecret) then
    ⟨true, some ⟨401, invalidSecretBody⟩, st, []⟩
  else
    match req.body with
    | none => ⟨true, some ⟨500, internalErrorBody⟩, st, []⟩
    | some payload =>
        if payload.event = "message:send" then
          let r := handleInboundMessage config env accountId payload st
          ⟨true, some ⟨200, okBody⟩, r.1, r.2⟩
        else if payload.event = "message:received" then
          ⟨true, some ⟨200, okBody⟩, st, []⟩
        else if payload.event = "session:set_state" then
          ⟨true, some ⟨200, okBody⟩, st, []⟩
        else if payload.event = "session:set_email" then
          ⟨true, some ⟨200, okBody⟩,
           { st with
               activeSessions :=
                 applySetEmail payload.data.session_id payload.data.email
                   st.activeSessions },
           []⟩
        else ⟨true, some ⟨200, okBody⟩, st, []⟩

/-! ### C2: wrong secret ⇒ 401, no processing -/

/-- C2: a POST to the webhook path whose `secret` query value fails
validation is answered 401 with the Invalid-secret JSON body; the handler
returns `true`, the session and pending maps are unchanged, and no effect
(no session creation, no dispatcher call) occurs. -/
theorem webhook_invalid_secret_rejected :
    ∀ (req : WebhookRequest) (config : CrispConfig) (env : Env)
      (accountId : String) (st : MonitorState),
      req.method = "POST" →
      startsWithJS req.pathname (resolveWebhookPath config) = true →
      validateWebhookSecret req.secretParam config.webhookSecret = false →
      handleCrispWebhookRequest req config env accountId st =
        ⟨true, some ⟨401, invalidSecretBody⟩, st, []⟩ := by
  intro req config env accountId st hm hp hs
  unfold handleCrispWebhookRequest
  rw [if_neg (by simp [hm]), if_neg (by simp [hp]), if_pos (by simp [hs])]

/-- Request for the C2 witness: right path, wrong secret. -/
def c2Req : WebhookRequest :=
  { method := "POST", pathname := "/crisp-webhook",
    secretParam := some [1, 2], body := none }

/-- Config for the C2 witness. -/
def c2Config : CrispConfig :=
  { webhookPath := "", webhookSecret := [9, 9], autoReply := true,
    approvalMode := false, historyLimit := 0, operatorName := "Op",
    telegramBotToken := "", approvalChatId := "", resolveOnReply := false }

/-- Environment for the C2 witness. -/
def c2Env : Env :=
  { runtimeAvailable := true, history := none, telegramResult := none,
    aiChunks := [], randStr := "0.abc123", now := 0 }

/-- Witness for C2 at a fully concrete request. -/
theorem webhook_invalid_secret_rejected_witness :
    handleCrispWebhookRequest c2Req c2Config c2Env "a" ⟨[], []⟩ =
      ⟨true, some ⟨401, invalidSecretBody⟩, ⟨[], []⟩, []⟩ :=
  webhook_invalid_secret_rejected c2Req c2Config c2Env "a" ⟨[], []⟩
    (by decide) (by decide) (by decide)

/-! ### C10: `session:set_email` with a missing or empty email -/

theorem applySetEmail_not_truthy (sid : String) (email : Option String)
    (m : SessionMap) (h : truthy email = false) :
    applySetEmail sid email m = m := by
  cases hget : mapGet m sid with
  | none => exact applySetEmail_of_none sid email m hget
  | some session =>
      exact applySetEmail_of_some_false sid email m session hget (by simp [h])

/-- C10: a `session:set_email` event updates `visitorEmail` only through
`applySetEmail` (which requires both a tracked session and a truthy email);
with an absent or empty email, or an untracked session, the state is
entirely unchanged — and the response is still `200 {"ok":true}`. -/
theorem set_email_empty_noop :
    ∀ (req : WebhookRequest) (config : CrispConfig) (env : Env)
      (accountId : String) (st : MonitorState)
      (payload : CrispWebhookPayload),
      req.method = "POST" →
      startsWithJS req.pathname (resolveWebhookPath config) = true →
      validateWebhookSecret req.secretParam config.webhookSecret = true →
      req.body = some payload →
      payload.event = "session:set_email" →
      (handleCrispWebhookRequest req config env accountId st =
        ⟨true, some ⟨200, okBody⟩,
         { st with
             activeSessions :=
               applySetEmail payload.data.session_id payload.data.email
                 st.activeSessions },
         []⟩) ∧
      (truthy payload.data.email = false →
        handleCrispWebhookRequest req config env accountId st =
          ⟨true, some ⟨200, okBody⟩, st, []⟩) ∧
      (mapGet st.activeSessions payload.data.session_id = none →
        handleCrispWebhookRequest req config env accountId st =
          ⟨true, some ⟨200, okBody⟩, st, []⟩) := by
  intro req config env accountId st payload hm hp hs hbody hevent
  have hmain : handleCrispWebhookRequest req config env accountId st =
      ⟨true, some ⟨200, okBody⟩,
       { st with
           activeSessions :=
             applySetEmail payload.data.session_id payload.data.email
               st.activeSessions },
       []⟩ := by
    unfold handleCrispWebhookRequest
    rw [if_neg (by simp [hm]), if_neg (by simp [hp]), if_neg (by simp [hs]),
      hbody]
    simp +decide [hevent]
  refine ⟨hmain, ?_, ?_⟩
  · intro hfalse
    rw [hmain, applySetEmail_not_truthy _ _ _ hfalse]
  · intro hnone
    rw [hmain, applySetEmail_of_none _ _ _ hnone]

/-- Payload for the C10 witness: `session:set_email` with no email field. -/
def c10Payload : CrispWebhookPayload :=
  { website_id := "w", event := "session:set_email",
    data := { website_id := "w", session_id := "s1", type := none,
              content := none, from_ := none, timestamp := none,
              fingerprint := none, user := none, state := none,
              email := none },
    timestamp := 0 }

/-- Request for the C10 witness. -/
def c10Req : WebhookRequest :=
  { method := "POST", pathname := "/crisp-webhook",
    secretParam := some [7], body := some c10Payload }

/-- Config for the C10 witness. -/
def c10Config : CrispConfig :=
  { webhookPath := "", webhookSecret := [7], autoReply := true,
    approvalMode := false, historyLimit := 0, operatorName := "Op",
    telegramBotToken := "", approvalChatId := "", resolveOnReply := false }

/-- Environment for the C10 witness. -/
def c10Env : Env :=
  { runtimeAvailable := true, history := none, telegramResult := none,
    aiChunks := [], randStr := "0.abc123", now := 0 }

/-- A tracked session present while the C10 witness event arrives. -/
def c10Session : CrispSessionState :=
  { sessionId := "s1", websiteId := "w", accountId := "a",
    visitorName := "v", visitorEmail := none, startedAt := 0,
    lastMessageAt := 0, messageCount := 1, isNew := true }

/-- Witness for C10: a missing email leaves the state untouched even though
session `"s1"` is tracked, and the response is 200. -/
theorem set_email_empty_noop_witness :
    handleCrispWebhookRequest c10Req c10Config c10Env "a"
        ⟨[("s1", c10Session)], []⟩ =
      ⟨true, some ⟨200, okBody⟩, ⟨[("s1", c10Session)], []⟩, []⟩ :=
  (set_email_empty_noop c10Req c10Config c10Env "a"
      ⟨[("s1", c10Session)], []⟩ c10Payload
      (by decide) (by decide) (by decide) rfl rfl).2.1 (by decide)

/-! ### C3: approval mode stores a ticket and never replies directly -/

theorem storePendingReply_get (randStr : String) (now : Nat)
    (params : StoreParams) (m : PendingMap) :
    mapGet (storePendingReply randStr now params m).2 (generateId randStr) =
      some (storePendingReply randStr now params m).1 := by
  unfold storePendingReply
  apply mapGet_filter_set
  simp only [Bool.not_eq_true', decide_eq_false_iff_not]
  omega

theorem update_preserves_fields (id t c : String) (m : PendingMap)
    (k : String) (r0 : PendingReply) (h : mapGet m k = some r0) :
    ∃ r, mapGet (updatePendingReplyTelegram id t c m) k = some r ∧
      r.proposedReply = r0.proposedReply ∧
      r.visitorMessage = r0.visitorMessage ∧
      r.crispSessionId = r0.crispSessionId := by
  unfold updatePendingReplyTelegram
  cases hu : mapGet m (toUpperCase id) with
  | none => exact ⟨r0, h, rfl, rfl, rfl⟩
  | some pending =>
      by_cases hk : k = toUpperCase id
      · subst hk
        have hpr : pending = r0 := by
          rw [h] at hu
          exact (Option.some.inj hu).symm
        subst hpr
        exact ⟨_, mapGet_set_self _ _ _, rfl, rfl, rfl⟩
      · exact ⟨r0, (mapGet_set_ne m _ k _ hk).trans h, rfl, rfl, rfl⟩

/-- C3: an inbound visitor text message handled with approval mode enabled
(and a Telegram channel configured) causes no `sendMessage` effect; a
pending reply keyed by the generated ID is stored with an empty
`proposedReply` and the visitor's text verbatim; and exactly one Telegram
notification is emitted. -/
theorem approval_mode_pending_created :
    ∀ (req : WebhookRequest) (config : CrispConfig) (env : Env)
      (accountId : String) (st : MonitorState)
      (payload : CrispWebhookPayload) (txt : String),
      req.method = "POST" →
      startsWithJS req.pathname (resolveWebhookPath config) = true →
      validateWebhookSecret req.secretParam config.webhookSecret = true →
      req.body = some payload →
      payload.event = "message:send" →
      payload.data.from_ = some "user" →
      payload.data.type = some "text" →
      payload.data.content = some txt →
      config.approvalMode = true →
      env.runtimeAvailable = true →
      config.telegramBotToken ≠ "" →
      config.approvalChatId ≠ "" →
      (∀ e ∈ (handleCrispWebhookRequest req config env accountId st).effects,
          isSendMessage e = false) ∧
      (∃ pending : PendingReply,
          mapGet (handleCrispWebhookRequest req config env accountId
              st).state.pendingReplies (generateId env.randStr) =
            some pending ∧
          pending.proposedReply = "" ∧
          pending.visitorMessage = txt ∧
          pending.crispSessionId = payload.data.session_id) ∧
      (handleCrispWebhookRequest req config env accountId st).effects.countP
          isTelegramNotify = 1 := by
  intro req config env accountId st payload txt hm hp hs hbody hevent hfrom
    htype hcontent happr hrt htok hchat
  have hred : handleCrispWebhookRequest req config env accountId st =
      ⟨true, some ⟨200, okBody⟩,
        (handleInboundMessage config env accountId payload st).1,
        (handleInboundMessage config env accountId payload st).2⟩ := by
    unfold handleCrispWebhookRequest
    rw [if_neg (by simp [hm]), if_neg (by simp [hp]), if_neg (by simp [hs]),
      hbody]
    exact if_pos hevent
  set vn : String :=
    (match payload.data.user with
     | some u => if u.nickname = "" then "Visitor" else u.nickname
     | none => "Visitor") with hvn
  set stored :=
    storePendingReply env.randStr env.now
      { crispSessionId := payload.data.session_id,
        crispWebsiteId := payload.data.website_id,
        visitorName := vn, visitorMessage := txt,
        proposedReply := "", accountId := accountId }
      st.pendingReplies with hstored
  have hstget : mapGet stored.2 (generateId env.randStr) = some stored.1 := by
    rw [hstored]
    exact storePendingReply_get env.randStr env.now _ st.pendingReplies
  set histPair :=
    (if config.historyLimit > 0 then
      match env.history with
      | none => (("" : String),
          [Effect.getMessages payload.data.website_id
            payload.data.session_id config.historyLimit])
      | some msgs =>
          (buildHistoryText vn config.operatorName msgs,
           [Effect.getMessages payload.data.website_id
             payload.data.session_id config.historyLimit])
     else ("", ([] : List Effect))) with hhp
  have heffs : ∀ e ∈ histPair.2,
      isSendMessage e = false ∧ isTelegramNotify e = false := by
    intro e he
    rw [hhp] at he
    by_cases hl : config.historyLimit > 0
    · rw [if_pos hl] at he
      cases hh : env.history with
      | none =>
          rw [hh] at he
          simp only [List.mem_singleton] at he
          subst he
          exact ⟨rfl, rfl⟩
      | some msgs =>
          rw [hh] at he
          simp only [List.mem_singleton] at he
          subst he
          exact ⟨rfl, rfl⟩
    · rw [if_neg hl] at he
      cases he
  have hinb : ∃ effs1 : List Effect,
      (∀ e ∈ effs1, isSendMessage e = false ∧ isTelegramNotify e = false) ∧
      ∃ pmap : PendingMap,
        (∃ pending : PendingReply,
            mapGet pmap (generateId env.randStr) = some pending ∧
            pending.proposedReply = "" ∧
            pending.visitorMessage = txt ∧
            pending.crispSessionId = payload.data.session_id) ∧
        ∃ smap : SessionMap,
          handleInboundMessage config env accountId payload st =
            (⟨smap, pmap⟩,
             effs1 ++ [Effect.telegramNotify stored.1.id vn txt]) := by
    cases htg : env.telegramResult with
    | none =>
        refine ⟨histPair.2, heffs, stored.2,
          ⟨stored.1, hstget, rfl, rfl, rfl⟩,
          (trackSession payload.data.session_id payload.data.website_id
            accountId vn none env.now st.activeSessions).2, ?_⟩
        unfold handleInboundMessage
        rw [if_neg (by simp [hfrom]), if_neg (by rw [htype]; decide)]
        simp +decide [htype, hcontent, happr, hrt, htok, hchat, htg,
          ← hvn, ← hhp, ← hstored]
    | some mid =>
        by_cases hmid : mid = 0
        · subst hmid
          refine ⟨histPair.2, heffs, stored.2,
            ⟨stored.1, hstget, rfl, rfl, rfl⟩,
            (trackSession payload.data.session_id payload.data.website_id
              accountId vn none env.now st.activeSessions).2, ?_⟩
          unfold handleInboundMessage
          rw [if_neg (by simp [hfrom]), if_neg (by rw [htype]; decide)]
          simp +decide [htype, hcontent, happr, hrt, htok, hchat, htg,
            ← hvn, ← hhp, ← hstored]
        · obtain ⟨r, hr, hr1, hr2, hr3⟩ :=
            update_preserves_fields stored.1.id (toString mid)
              config.approvalChatId stored.2 (generateId env.randStr)
              stored.1 hstget
          refine ⟨histPair.2, heffs,
            updatePendingReplyTelegram stored.1.id (toString mid)
              config.approvalChatId stored.2,
            ⟨r, hr, hr1, hr2, hr3⟩,
            (trackSession payload.data.session_id payload.data.website_id
              accountId vn none env.now st.activeSessions).2, ?_⟩
          unfold handleInboundMessage
          rw [if_neg (by simp [hfrom]), if_neg (by rw [htype]; decide)]
          simp +decide [htype, hcontent, happr, hrt, htok, hchat, htg, hmid,
            ← hvn, ← hhp, ← hstored]
  obtain ⟨effs1, heffs1, pmap, ⟨pending, hpget, hpr, hvm, hcs⟩, smap, heq⟩ :=
    hinb
  rw [hred, heq]
  refine ⟨?_, ⟨pending, hpget, hpr, hvm, hcs⟩, ?_⟩
  · intro e he
    rcases List.mem_append.mp he with h1 | h1
    · exact (heffs1 e h1).1
    · rw [List.mem_singleton] at h1
      subst h1
      rfl
  · show (effs1 ++
        [Effect.telegramNotify stored.1.id vn txt]).countP isTelegramNotify = 1
    rw [List.countP_append]
    have h0 : effs1.countP isTelegramNotify = 0 :=
      List.countP_eq_zero.mpr fun a ha => by simp [(heffs1 a ha).2]
    rw [h0]
    simp [List.countP_cons, isTelegramNotify]

/-- Payload for the C3 witness: a visitor text message. -/
def c3Payload : CrispWebhookPayload :=
  { website_id := "w", event := "message:send",
    data := { website_id := "w", session_id := "sess1", type := some "text",
              content := some "hello", from_ := some "user",
              timestamp := none, fingerprint := none, user := none,
              state := none, email := none },
    timestamp := 0 }

/-- Request for the C3 witness. -/
def c3Req : WebhookRequest :=
  { method := "POST", pathname := "/crisp-webhook",
    secretParam := some [5, 6], body := some c3Payload }

/-- Config for the C3 witness: approval mode on, Telegram configured. -/
def c3Config : CrispConfig :=
  { webhookPath := "", webhookSecret := [5, 6], autoReply := false,
    approvalMode := true, historyLimit := 0, operatorName := "Op",
    telegramBotToken := "tok", approvalChatId := "123",
    resolveOnReply := false }

/-- Environment for the C3 witness. -/
def c3Env : Env :=
  { runtimeAvailable := true, history := none, telegramResult := some 5,
    aiChunks := [], randStr := "0.abc123", now := 0 }

/-- Witness for C3 at a fully concrete request. -/
theorem approval_mode_pending_created_witness :
    (∀ e ∈ (handleCrispWebhookRequest c3Req c3Config c3Env "a"
        ⟨[], []⟩).effects, isSendMessage e = false) ∧
    (∃ pending : PendingReply,
        mapGet (handleCrispWebhookRequest c3Req c3Config c3Env "a"
            ⟨[], []⟩).state.pendingReplies (generateId c3Env.randStr) =
          some pending ∧
        pending.proposedReply = "" ∧
        pending.visitorMessage = "hello" ∧
        pending.crispSessionId = c3Payload.data.session_id) ∧
    (handleCrispWebhookRequest c3Req c3Config c3Env "a"
        ⟨[], []⟩).effects.countP isTelegramNotify = 1 :=
  approval_mode_pending_created c3Req c3Config c3Env "a" ⟨[], []⟩ c3Payload
    "hello" rfl (by decide) (by decide) rfl rfl rfl rfl rfl rfl rfl
    (by decide) (by decide)

end OpenClawCrisp
